import Mathlib

/-!
Verification of the astronomy calculation engine repository.

The repository ships its numerical test harness `generate/ctest.c` in the
source tree; the engine proper (`astronomy.c` / `astronomy.h`) is not part
of the tree.  Functions that live in `ctest.c` (`DegreeDiff`,
`AppendStateVector`, the expected-value tables inside `Test_AstroTime`,
`GeoidTest`, ...) are embedded here directly from that source.  Engine
operations that `ctest.c` merely calls are modelled from the
specification; every such definition carries a doc comment starting with
"Modelled from the spec:" naming what is missing.

All arithmetic is carried out over exact rationals; the C program computes
with IEEE doubles.  Where a claim states a numeric tolerance, the theorem
states the same tolerance for the exact model.
-/

/-- Status codes of the engine, from the specification's error taxonomy
(section 7).  `ASTRO_SUCCESS` is the zero value of the C enumeration, so a
`calloc`-zeroed record carries it. -/
inductive astro_status_t where
  | astro_success
  | astro_invalid_body
  | astro_invalid_date
  | astro_invalid_parameter
  | astro_bad_vector
  | astro_search_failure
  | astro_not_initialized
  | astro_indeterminate_result
  | astro_no_moon_quarter
  | astro_internal_error
  deriving DecidableEq, Repr

/-- Modelled from the spec: the time instant record of the missing
`astronomy.h`, carrying Universal Time and Terrestrial Time, both in days
since J2000.0 (2000-01-01 12:00).  The lazily-filled nutation and sidereal
caches are not needed by any claim and are omitted. -/
structure astro_time_t where
  ut : ℚ
  tt : ℚ
  deriving DecidableEq, Repr

/-- Modelled from the spec: the Julian-day-number computation (at 12h) of
the missing `Astronomy_MakeTime`, the standard proleptic-Gregorian
Julian-date formula (the NOVAS `julian_date` form).  C integer division
truncates toward zero, hence `Int.tdiv`. -/
def JulianDay12h (year month day : Int) : Int :=
  Int.tdiv (day - 32075
    + Int.tdiv (1461 * (year + 4800 + Int.tdiv (month - 14) 12)) 4
    + Int.tdiv (367 * (month - 2 - Int.tdiv (month - 14) 12 * 12)) 12
    - Int.tdiv (3 * (Int.tdiv (year + 4900 + Int.tdiv (month - 14) 12) 100)) 4) 1

/-- Modelled from the spec: the Espenak–Meeus piecewise polynomial for
ΔT = TT − UT in seconds, as a function of the fractional calendar year.
The specification names the model ("ΔT comes from a piecewise analytic
model (Espenak–Meeus form): segmented polynomials in calendar year",
section 4.1); the segment polynomials below are the published
Espenak–Meeus expressions. -/
def DeltaT_EspenakMeeus_ofYear (y : ℚ) : ℚ :=
  if y < -500 then
    let u : ℚ := (y - 1820) / 100 ;
    32 * u^2 - 20
  else if y < 500 then
    let u : ℚ := y / 100 ;
    10583.6 - 1014.41*u + 33.78311*u^2 - 5.952053*u^3
      - 0.1798452*u^4 + 0.022174192*u^5 + 0.0090316521*u^6
  else if y < 1600 then
    let u : ℚ := (y - 1000) / 100 ;
    1574.2 - 556.01*u + 71.23472*u^2 + 0.319781*u^3
      - 0.8503463*u^4 - 0.005050998*u^5 + 0.0083572073*u^6
  else if y < 1700 then
    let u : ℚ := y - 1600 ;
    120 - 0.9808*u - 0.01532*u^2 + u^3 / 7129
  else if y < 1800 then
    let u : ℚ := y - 1700 ;
    8.83 + 0.1603*u - 0.0059285*u^2 + 0.00013336*u^3 - u^4 / 1174000
  else if y < 1860 then
    let u : ℚ := y - 1800 ;
    13.72 - 0.332447*u + 0.0068612*u^2 + 0.0041116*u^3 - 0.00037436*u^4
      + 0.0000121272*u^5 - 0.0000001699*u^6 + 0.000000000875*u^7
  else if y < 1900 then
    let u : ℚ := y - 1860 ;
    7.62 + 0.5737*u - 0.251754*u^2 + 0.01680668*u^3
      - 0.0004473624*u^4 + u^5 / 233174
  else if y < 1920 then
    let u : ℚ := y - 1900 ;
    1.494119*u - 2.79 - 0.0598939*u^2 + 0.0061966*u^3 - 0.000197*u^4
  else if y < 1941 then
    let u : ℚ := y - 1920 ;
    21.20 + 0.84493*u - 0.076100*u^2 + 0.0020936*u^3
  else if y < 1961 then
    let u : ℚ := y - 1950 ;
    29.07 + 0.407*u - u^2 / 233 + u^3 / 2547
  else if y < 1986 then
    let u : ℚ := y - 1975 ;
    45.45 + 1.067*u - u^2 / 260 - u^3 / 718
  else if y < 2005 then
    let u : ℚ := y - 2000 ;
    63.86 + 0.3345*u - 0.060374*u^2 + 0.0017275*u^3
      + 0.000651814*u^4 + 0.00002373599*u^5
  else if y < 2050 then
    let u : ℚ := y - 2000 ;
    62.92 + 0.32217*u + 0.005589*u^2
  else if y < 2150 then
    32 * ((y - 1820) / 100)^2 - 20 - 0.5628 * (2150 - y)
  else
    let u : ℚ := (y - 1820) / 100 ;
    32 * u^2 - 20

/-- Modelled from the spec: days per tropical year, the constant the
engine uses to turn a UT day offset into a fractional calendar year when
evaluating ΔT. -/
def DAYS_PER_TROPICAL_YEAR : ℚ := 365.24217

/-- Modelled from the spec: ΔT in seconds as a function of UT days since
J2000, via the approximate fractional calendar year. -/
def DeltaT_EspenakMeeus (ut : ℚ) : ℚ :=
  DeltaT_EspenakMeeus_ofYear (2000 + (ut - 14) / DAYS_PER_TROPICAL_YEAR)

/-- Modelled from the spec: Terrestrial Time from Universal Time,
`tt = ut + ΔT(ut)/86400` (section 3, time-instant invariant). -/
def TerrestrialTime (ut : ℚ) : ℚ := ut + DeltaT_EspenakMeeus ut / 86400

/-- Modelled from the spec: `Astronomy_MakeTime` of the missing
`astronomy.c`.  It computes `ut` via the Julian-day formula in the
proleptic Gregorian calendar (days since J2000.0 = 2000-01-01 12:00) and
`tt = ut + ΔT/86400` (spec sections 3 and 4.1). -/
def Astronomy_MakeTime (year month day hour minute : Int) (second : ℚ) : astro_time_t :=
  let y2000 : Int := JulianDay12h year month day - 2451545
  let ut : ℚ := (y2000 : ℚ) - 1/2 + (hour : ℚ) / 24 + (minute : ℚ) / 1440 + second / 86400
  { ut := ut, tt := TerrestrialTime ut }

/-! ### Calendar dates and the time-text format (claim C1)

`Astronomy_FormatTime` is in the missing `astronomy.c`; its required
behaviour on concrete inputs is recorded by the expected-output table of
`Test_AstroTime` in `generate/ctest.c` (lines 485-495), which is embedded
below as `Test_AstroTime_format_checks`.  A civil instant is represented
exactly as a proleptic-Gregorian date plus the time of day in units of
0.1 ms (the finest granularity appearing in the test data). -/

/-- Proleptic Gregorian calendar date. -/
structure CalDate where
  year : Int
  month : Nat
  day : Nat
  deriving DecidableEq, Repr

/-- Proleptic Gregorian leap-year rule. -/
def isLeapYear (y : Int) : Bool :=
  y % 4 = 0 && (y % 100 != 0 || y % 400 = 0)

/-- Number of days in a month of the proleptic Gregorian calendar. -/
def daysInMonth (y : Int) (m : Nat) : Nat :=
  if m = 2 then (if isLeapYear y then 29 else 28)
  else if m = 4 || m = 6 || m = 9 || m = 11 then 30
  else 31

/-- The calendar day after the given one. -/
def nextDay (d : CalDate) : CalDate :=
  if d.day < daysInMonth d.year d.month then ⟨d.year, d.month, d.day + 1⟩
  else if d.month < 12 then ⟨d.year, d.month + 1, 1⟩
  else ⟨d.year + 1, 1, 1⟩

/-- A civil (UTC) instant: a calendar date plus the time of day counted in
tenths of a millisecond (0 ≤ tenthMilli < 864000000). -/
structure UtcMoment where
  date : CalDate
  tenthMilli : Nat
  deriving DecidableEq, Repr

/-- Round `x` to a multiple of the granularity `g`, halves to even, and
return the multiple count (round-half-to-even division). -/
def roundHalfEvenDiv (x g : Nat) : Nat :=
  let q := x / g
  let r := x % g
  if 2 * r < g then q
  else if g < 2 * r then q + 1
  else if q % 2 = 0 then q else q + 1

/-- Decimal rendering of a natural number left-padded with zeros to
`w` digits. -/
def padNat (w n : Nat) : String :=
  let s := toString n
  (String.mk (List.replicate (w - s.length) '0')) ++ s

/-- Render a calendar date as `YYYY-MM-DD` (years of at most four digits;
all dates in the embedded test data are in that range). -/
def renderDate (d : CalDate) : String :=
  padNat 4 d.year.toNat ++ "-" ++ padNat 2 d.month ++ "-" ++ padNat 2 d.day

/-- The four output granularities of the time-text format. -/
inductive astro_time_format_t where
  | time_format_day
  | time_format_minute
  | time_format_second
  | time_format_milli
  deriving DecidableEq, Repr

/-- Modelled from the spec: `Astronomy_FormatTime` of the missing
`astronomy.c`, producing `YYYY-MM-DDThh:mm[:ss[.fff]]Z` text (spec
section 6) at the chosen granularity, and matching the expected-output
table of `Test_AstroTime` in `generate/ctest.c`: sub-day granularities
round to the nearest representable unit (halves to even) with carry into
larger fields, while Day granularity truncates to the calendar date (per
`ctest.c` lines 489 and 495, `23:59:59.4994` and `23:59:59.500` both
render as `2020-12-31`). -/
def Astronomy_FormatTime (t : UtcMoment) (format : astro_time_format_t) : String :=
  match format with
  | .time_format_day => renderDate t.date
  | .time_format_minute =>
      let m := roundHalfEvenDiv t.tenthMilli 600000
      let (d, m) := if m = 1440 then (nextDay t.date, 0) else (t.date, m)
      renderDate d ++ "T" ++ padNat 2 (m / 60) ++ ":" ++ padNat 2 (m % 60) ++ "Z"
  | .time_format_second =>
      let s := roundHalfEvenDiv t.tenthMilli 10000
      let (d, s) := if s = 86400 then (nextDay t.date, 0) else (t.date, s)
      renderDate d ++ "T" ++ padNat 2 (s / 3600) ++ ":" ++ padNat 2 (s / 60 % 60)
        ++ ":" ++ padNat 2 (s % 60) ++ "Z"
  | .time_format_milli =>
      let k := roundHalfEvenDiv t.tenthMilli 10
      let (d, k) := if k = 86400000 then (nextDay t.date, 0) else (t.date, k)
      renderDate d ++ "T" ++ padNat 2 (k / 3600000) ++ ":" ++ padNat 2 (k / 60000 % 60)
        ++ ":" ++ padNat 2 (k / 1000 % 60) ++ "." ++ padNat 3 (k % 1000) ++ "Z"

/-- The reading of claim C1 for Day granularity: half-to-even rounding at
the granularity of a whole day with carry, i.e. a time of day of half a
day or more rounds the date up to the next calendar day.  (This is what
the claim asserts; `Astronomy_FormatTime` above, following the source
test's expected outputs, instead truncates at Day granularity.) -/
def FormatTimeDayHalfEven (t : UtcMoment) : String :=
  renderDate (if roundHalfEvenDiv t.tenthMilli 864000000 = 1 then nextDay t.date else t.date)

/-- The civil instant 2020-12-31T23:59:59.4994Z of `Test_AstroTime`. -/
def time_2020_4994 : UtcMoment := ⟨⟨2020, 12, 31⟩, 863994994⟩

/-- The civil instant 2020-12-31T23:59:59.500Z of `Test_AstroTime`. -/
def time_2020_500 : UtcMoment := ⟨⟨2020, 12, 31⟩, 863995000⟩

/-- One expected-output row of the `CheckTimeFormat` calls in
`Test_AstroTime`. -/
structure FormatCheck where
  time : UtcMoment
  format : astro_time_format_t
  expectedText : String
  deriving DecidableEq, Repr

/-- The expected-output table of `Test_AstroTime` (`generate/ctest.c`
lines 485-495), embedded row for row. -/
def Test_AstroTime_format_checks : List FormatCheck :=
  [ ⟨time_2020_4994, .time_format_milli,  "2020-12-31T23:59:59.499Z"⟩
  , ⟨time_2020_4994, .time_format_second, "2020-12-31T23:59:59Z"⟩
  , ⟨time_2020_4994, .time_format_minute, "2021-01-01T00:00Z"⟩
  , ⟨time_2020_4994, .time_format_day,    "2020-12-31"⟩
  , ⟨time_2020_500,  .time_format_milli,  "2020-12-31T23:59:59.500Z"⟩
  , ⟨time_2020_500,  .time_format_second, "2021-01-01T00:00:00Z"⟩
  , ⟨time_2020_500,  .time_format_minute, "2021-01-01T00:00Z"⟩
  , ⟨time_2020_500,  .time_format_day,    "2020-12-31"⟩
  ]

/-! ### Frame algebra (claim C3)

The rotation-matrix builders live in the missing `astronomy.c`.  The
specification (sections 3 and 4.3) fixes their algebraic shape: every
builder returns a 3 x 3 rotation matrix acting on column vectors
(`out = rot * in`), built compositionally from the `Pivot` primitive
(rotation about a coordinate axis); composition is matrix product and
inversion is the transpose.  The model below captures exactly that
shape, over exact rationals: a pivot is parametrized by a point
`(c, s)` on the unit circle (the cosine and sine of its angle), a frame's
orientation is an arbitrary finite product of pivots, and the A-to-B
builder is the change of basis between the two orientations.  The claim's
element-wise tolerances are inherited from exact identities. -/

open Matrix

/-- The six supported reference frames (spec section 4.3). -/
inductive Frame where
  | eqj
  | eqd
  | ecl
  | ect
  | hor
  | gal
  deriving DecidableEq, Fintype, Repr

/-- Modelled from the spec: the `Pivot` primitive of the missing
`astronomy.c` as an elementary rotation matrix about coordinate axis
0, 1 or 2, parametrized by the cosine `c` and sine `s` of its angle. -/
def pivotMatrix (axis : Fin 3) (c s : ℚ) : Matrix (Fin 3) (Fin 3) ℚ :=
  if axis = 0 then !![1, 0, 0; 0, c, -s; 0, s, c]
  else if axis = 1 then !![c, 0, s; 0, 1, 0; -s, 0, c]
  else !![c, -s, 0; s, c, 0; 0, 0, 1]

/-- A pivot descriptor: an axis together with the cosine and sine of the
rotation angle. -/
def PivotSpec : Type := Fin 3 × ℚ × ℚ

/-- The descriptor's point `(c, s)` lies on the unit circle, i.e. it is
the cosine/sine pair of an actual angle. -/
def PivotSpec.onUnitCircle (p : PivotSpec) : Prop := p.2.1 ^ 2 + p.2.2 ^ 2 = 1

instance (p : PivotSpec) : Decidable p.onUnitCircle := by
  unfold PivotSpec.onUnitCircle; infer_instance

/-- Orientation matrix of a frame: the product of its pivot rotations
(spec section 4.3: matrices are "constructed compositionally" from
`Pivot`). -/
def orientationMatrix (l : List PivotSpec) : Matrix (Fin 3) (Fin 3) ℚ :=
  l.foldr (fun p acc => pivotMatrix p.1 p.2.1 p.2.2 * acc) 1

/-- Modelled from the spec: `Astronomy_CombineRotation` of the missing
`astronomy.c`; combining rotation `a` with rotation `b` yields the
rotation that applies `a` first and then `b`, i.e. the matrix product
`b * a` in the `out = rot * in` convention. -/
def Astronomy_CombineRotation (a b : Matrix (Fin 3) (Fin 3) ℚ) : Matrix (Fin 3) (Fin 3) ℚ :=
  b * a

/-- Modelled from the spec: the builder of the rotation matrix from frame
`a` to frame `b`, given the orientation (pivot list) of every frame at
the time and observer of interest: change of basis through the frames'
orientations, using the transpose as the inverse (spec section 3). -/
def rotationMatrix (frames : Frame → List PivotSpec) (a b : Frame) :
    Matrix (Fin 3) (Fin 3) ℚ :=
  orientationMatrix (frames b) * (orientationMatrix (frames a))ᵀ

/-- A concrete assignment of pivot lists to the six frames, used to
instantiate the frame-algebra theorems: EQJ is the reference orientation,
the others are pivot products with exact rational points on the unit
circle. -/
def sampleFrames : Frame → List PivotSpec
  | .eqj => []
  | .eqd => [((2 : Fin 3), 3/5, 4/5)]
  | .ecl => [((0 : Fin 3), 5/13, 12/13)]
  | .ect => [((2 : Fin 3), 3/5, 4/5), ((0 : Fin 3), 5/13, 12/13)]
  | .hor => [((2 : Fin 3), 4/5, -(3/5)), ((1 : Fin 3), 8/17, 15/17)]
  | .gal => [((2 : Fin 3), 15/17, 8/17), ((0 : Fin 3), 7/25, 24/25), ((2 : Fin 3), 20/29, 21/29)]

/-! ### Observer vector parameter validation (claim C8) -/

/-- Modelled from the spec: the vector record of the missing
`astronomy.h`: a status and Cartesian components in AU.  On failure the
numeric fields hold NaN (spec section 6); NaN is modelled as `none`. -/
structure astro_vector_t where
  status : astro_status_t
  x : Option ℚ
  y : Option ℚ
  z : Option ℚ
  deriving DecidableEq, Repr

/-- Modelled from the spec: `Astronomy_ObserverVector` of the missing
`astronomy.c`, restricted to what decides claim C8: the equator-date
selector is a C enumeration with members `EQUATOR_J2000 = 0` and
`EQUATOR_OF_DATE = 1`; an enum-valued input outside its domain yields
`ASTRO_INVALID_PARAMETER` with NaN payload (spec sections 6 and 7).  The
geocentric vector computed on the success path requires the geoid and
sidereal-time machinery of the missing source and is therefore supplied
as the abstract argument `geoid`. -/
def Astronomy_ObserverVector (geoid : ℚ × ℚ × ℚ) (equdate : Int) : astro_vector_t :=
  if equdate = 0 ∨ equdate = 1 then
    ⟨.astro_success, some geoid.1, some geoid.2.1, some geoid.2.2⟩
  else
    ⟨.astro_invalid_parameter, none, none, none⟩

/-! ### The state-vector batch of the test harness (claim C9)

Embedded from `generate/ctest.c` lines 124-182. -/

/-- Modelled from the spec: the state-vector record of the missing
`astronomy.h` (position, velocity, time, status). -/
structure astro_state_vector_t where
  status : astro_status_t
  x : ℚ
  y : ℚ
  z : ℚ
  vx : ℚ
  vy : ℚ
  vz : ℚ
  t : astro_time_t
  deriving DecidableEq, Repr

/-- The all-zero state vector: what a `calloc`-zeroed array entry holds
(`ASTRO_SUCCESS` is the zero enum value). -/
def zeroStateVector : astro_state_vector_t :=
  ⟨.astro_success, 0, 0, 0, 0, 0, 0, ⟨0, 0⟩⟩

/-- Embedded from `generate/ctest.c` lines 124-130: a growable batch of
state vectors.  `size` counts allocated entries, `length` the valid ones;
the C `array` pointer is `NULL` exactly when nothing was allocated yet,
modelled by `none`. -/
structure state_vector_batch_t where
  size : Nat
  length : Nat
  array : Option (List astro_state_vector_t)
  deriving DecidableEq, Repr

/-- Embedded from `generate/ctest.c` lines 132-139. -/
def EmptyStateVectorBatch : state_vector_batch_t := ⟨0, 0, none⟩

/-- Embedded from `generate/ctest.c` lines 149-182
(`AppendStateVector`).  A state whose status is not `ASTRO_SUCCESS` is
rejected (the `FFAIL` early exit, modelled as `none`); on the first
append a 100-entry zeroed array is allocated; a full buffer is reallocated
at twice the size with the old entries copied and the rest zeroed
(`calloc` + `memcpy`); then the state is stored at index `length`, which
is incremented.  Allocation itself cannot fail in the model. -/
def AppendStateVector (batch : state_vector_batch_t) (state : astro_state_vector_t) :
    Option state_vector_batch_t :=
  if state.status ≠ .astro_success then none
  else
    let b : state_vector_batch_t :=
      match batch.array with
      | none => ⟨100, batch.length, some (List.replicate 100 zeroStateVector)⟩
      | some arr =>
          if batch.length = batch.size then
            ⟨2 * batch.size, batch.length, some (arr ++ List.replicate batch.size zeroStateVector)⟩
          else batch
    some ⟨b.size, b.length + 1, b.array.map (fun l => l.set b.length state)⟩

/-- The entry of a batch at a given index, when it exists. -/
def batchGet (b : state_vector_batch_t) (i : Nat) : Option astro_state_vector_t :=
  b.array.bind (fun l => l[i]?)

/-- The batch invariant maintained by the harness: the allocated array
(when present) has exactly `size` entries, is nonempty (the first
allocation already has the initial capacity 100), and `0 ≤ length ≤
size`; before the first allocation both counters are zero
(`EmptyStateVectorBatch`). -/
def BatchWF (b : state_vector_batch_t) : Prop :=
  match b.array with
  | none => b.size = 0 ∧ b.length = 0
  | some l => l.length = b.size ∧ b.length ≤ b.size ∧ 0 < b.size

instance (b : state_vector_batch_t) : Decidable (BatchWF b) := by
  unfold BatchWF; cases b.array <;> infer_instance

/-- A sample state vector used to instantiate the batch theorems. -/
def sampleState : astro_state_vector_t :=
  ⟨.astro_success, 1, 2, 3, 4, 5, 6, ⟨6910, 6910⟩⟩

/-! ### Wrapped angular difference (claim C10)

Embedded from `generate/ctest.c` lines 97-103. -/

/-- Embedded from `generate/ctest.c` lines 97-103 (`DegreeDiff`): the
absolute difference of two angles in degrees, folded over the wraparound
of the range [0, 360).  (The C `ABS` macro also aborts on non-finite
input; inputs here are exact rationals, hence always finite.) -/
def DegreeDiff (a b : ℚ) : ℚ :=
  let diff := |a - b|
  if 180 < diff ∧ diff < 360 then 360 - diff else diff

/-! ## Helper lemmas -/

/-- Transposing a pivot rotation negates the sine parameter. -/
theorem pivot_transpose (axis : Fin 3) (c s : ℚ) :
    (pivotMatrix axis c s)ᵀ = pivotMatrix axis c (-s) := by
  unfold pivotMatrix
  split_ifs <;>
    (ext i j; fin_cases i <;> fin_cases j <;>
      simp [Matrix.transpose_apply, Matrix.vecHead, Matrix.vecTail])

/-- A pivot rotation whose parameters lie on the unit circle is
orthogonal. -/
theorem pivot_mul_transpose (axis : Fin 3) (c s : ℚ) (h : c ^ 2 + s ^ 2 = 1) :
    pivotMatrix axis c s * (pivotMatrix axis c s)ᵀ = 1 := by
  rw [pivot_transpose]
  unfold pivotMatrix
  split_ifs <;>
    · rw [Matrix.mul_fin_three, Matrix.one_fin_three]
      ext i j
      fin_cases i <;> fin_cases j <;>
        simp [Matrix.vecHead, Matrix.vecTail] <;> first
          | linear_combination h
          | linear_combination -h
          | linear_combination

/-- A product of unit-circle pivots is orthogonal. -/
theorem orientation_mul_transpose (l : List PivotSpec)
    (h : ∀ p ∈ l, p.onUnitCircle) :
    orientationMatrix l * (orientationMatrix l)ᵀ = 1 := by
  induction l with
  | nil => simp [orientationMatrix]
  | cons hd tl ih =>
      have hh : hd.2.1 ^ 2 + hd.2.2 ^ 2 = 1 := h hd (List.mem_cons_self hd tl)
      have ht := ih (fun p hp => h p (List.mem_cons_of_mem hd hp))
      have hstep : orientationMatrix (hd :: tl)
          = pivotMatrix hd.1 hd.2.1 hd.2.2 * orientationMatrix tl := rfl
      rw [hstep, Matrix.transpose_mul, Matrix.mul_assoc,
        ← Matrix.mul_assoc (orientationMatrix tl), ht, Matrix.one_mul,
        pivot_mul_transpose hd.1 hd.2.1 hd.2.2 hh]

/-- Orthogonality from the other side. -/
theorem orientation_transpose_mul (l : List PivotSpec)
    (h : ∀ p ∈ l, p.onUnitCircle) :
    (orientationMatrix l)ᵀ * orientationMatrix l = 1 :=
  Matrix.mul_eq_one_comm.mp (orientation_mul_transpose l h)

/-- The A-to-B rotation matrix composed with the B-to-A one (as matrices)
is exactly the identity. -/
theorem rotation_roundtrip (frames : Frame → List PivotSpec)
    (h : ∀ f, ∀ p ∈ frames f, p.onUnitCircle) (a b : Frame) :
    rotationMatrix frames a b * rotationMatrix frames b a = 1 := by
  unfold rotationMatrix
  rw [Matrix.mul_assoc, ← Matrix.mul_assoc (orientationMatrix (frames a))ᵀ,
    orientation_transpose_mul (frames a) (h a), Matrix.one_mul,
    orientation_mul_transpose (frames b) (h b)]

/-- Every frame-to-frame rotation matrix of the model is orthogonal. -/
theorem rotation_is_orthogonal (frames : Frame → List PivotSpec)
    (h : ∀ f, ∀ p ∈ frames f, p.onUnitCircle) (a b : Frame) :
    rotationMatrix frames a b * (rotationMatrix frames a b)ᵀ = 1 := by
  unfold rotationMatrix
  rw [Matrix.transpose_mul, Matrix.transpose_transpose, Matrix.mul_assoc,
    ← Matrix.mul_assoc (orientationMatrix (frames a))ᵀ,
    orientation_transpose_mul (frames a) (h a), Matrix.one_mul,
    orientation_mul_transpose (frames b) (h b)]

/-- Each row of an orthogonal matrix has squared norm exactly one (the
quantity `CheckUnitVector` in `generate/ctest.c` measures). -/
theorem row_normsq_of_orthogonal (R : Matrix (Fin 3) (Fin 3) ℚ)
    (hR : R * Rᵀ = 1) (i : Fin 3) : (∑ j, R i j ^ 2) = 1 := by
  have h1 : (R * Rᵀ) i i = (1 : Matrix (Fin 3) (Fin 3) ℚ) i i := by rw [hR]
  rw [Matrix.mul_apply, Matrix.one_apply_eq] at h1
  calc (∑ j, R i j ^ 2) = ∑ j, R i j * Rᵀ j i := by
        refine Finset.sum_congr rfl fun j _ => ?_
        rw [Matrix.transpose_apply, sq]
    _ = 1 := h1

/-- The sample frame orientations consist of unit-circle pivots. -/
theorem sampleFrames_unitCircle : ∀ f, ∀ p ∈ sampleFrames f, p.onUnitCircle := by
  intro f p hp
  unfold PivotSpec.onUnitCircle
  cases f <;>
      simp only [sampleFrames, List.mem_cons, List.not_mem_nil, or_false] at hp <;>
      rcases hp with rfl | rfl | rfl <;>
      norm_num

/-! ## Claim theorems -/

/-- C1, counterexample: the claim asserts half-to-even rounding at Day
granularity as well, under which 2020-12-31T23:59:59.500Z (whose time of
day exceeds half a day) would render as the next day, `2021-01-01`; but
the expected-output table of `Test_AstroTime` (`generate/ctest.c` line
495) requires `Astronomy_FormatTime` to render it as `2020-12-31` at Day
granularity. -/
theorem FormatTime_day_rounding_counterexample :
    (⟨time_2020_500, .time_format_day, "2020-12-31"⟩ : FormatCheck)
        ∈ Test_AstroTime_format_checks
    ∧ FormatTimeDayHalfEven time_2020_500 = "2021-01-01"
    ∧ Astronomy_FormatTime time_2020_500 .time_format_day = "2020-12-31"
    ∧ FormatTimeDayHalfEven time_2020_500
        ≠ Astronomy_FormatTime time_2020_500 .time_format_day := by
  refine ⟨by decide, by decide, by decide, by decide⟩

/-- C1, amended: formatting a time rounds to the nearest representable
unit (halves to even) at Minute, Second and Millisecond granularity, with
carry into larger fields, while Day granularity truncates to the calendar
date: the model reproduces every expected output of `Test_AstroTime`
(`generate/ctest.c` lines 485-495), in particular
2020-12-31T23:59:59.4994Z renders as `2020-12-31T23:59:59.499Z` at
millisecond granularity, and 2020-12-31T23:59:59.500Z rounds up to
2021-01-01T00:00:00Z at second granularity and 2021-01-01T00:00Z at
minute granularity but renders as `2020-12-31` at day granularity. -/
theorem FormatTime_rounding_table :
    ∀ c ∈ Test_AstroTime_format_checks,
      Astronomy_FormatTime c.time c.format = c.expectedText := by decide

/-- Witness for `FormatTime_rounding_table` at the first table row. -/
theorem FormatTime_rounding_table_witness :
    (⟨time_2020_4994, .time_format_milli, "2020-12-31T23:59:59.499Z"⟩ : FormatCheck)
        ∈ Test_AstroTime_format_checks
    ∧ Astronomy_FormatTime time_2020_4994 .time_format_milli
        = "2020-12-31T23:59:59.499Z" :=
  ⟨by decide,
    FormatTime_rounding_table
      ⟨time_2020_4994, .time_format_milli, "2020-12-31T23:59:59.499Z"⟩ (by decide)⟩

/-- C2: constructing the time for 2018-12-02 18:30:12.543 UTC yields
`ut = 6910.270978506945` and `tt = 6910.271800214368` days since J2000,
each within an absolute error of 1e-12 (the regression check of
`Test_AstroTime`, `generate/ctest.c` lines 446-471). -/
theorem MakeTime_2018_regression :
    |(Astronomy_MakeTime 2018 12 2 18 30 12.543).ut - 6910270978506945 / 10 ^ 12|
        ≤ 1 / 10 ^ 12
    ∧ |(Astronomy_MakeTime 2018 12 2 18 30 12.543).tt - 6910271800214368 / 10 ^ 12|
        ≤ 1 / 10 ^ 12 := by
  have hjd : ((JulianDay12h 2018 12 2 - 2451545 : Int) : ℚ) = 6910 := by
    rw [show JulianDay12h 2018 12 2 = 2458455 from by decide]
    norm_num
  constructor <;>
    · rw [abs_le]
      constructor <;>
        · simp only [Astronomy_MakeTime, TerrestrialTime, DeltaT_EspenakMeeus,
            DeltaT_EspenakMeeus_ofYear, DAYS_PER_TROPICAL_YEAR, hjd]
          norm_num

/-- C3: for every ordered pair of frames and every assignment of actual
orientations (pivot products over the unit circle) to the frames, the
A-to-B rotation combined with the B-to-A rotation is the identity matrix
to within 2e-15 per element, and each row and each column of the produced
rotation matrix has squared norm 1 to within 1.8e-15 (the quantities
checked by `CheckInverse` and `CheckUnitVector` in `generate/ctest.c`).
In the exact model the errors are zero. -/
theorem Rotation_roundtrip_and_unit_norms (frames : Frame → List PivotSpec)
    (h : ∀ f, ∀ p ∈ frames f, p.onUnitCircle) (a b : Frame) :
    (∀ i j, |Astronomy_CombineRotation (rotationMatrix frames a b)
        (rotationMatrix frames b a) i j
        - (1 : Matrix (Fin 3) (Fin 3) ℚ) i j| ≤ 2 / 10 ^ 15)
    ∧ (∀ i, |(∑ j, rotationMatrix frames a b i j ^ 2) - 1| ≤ 18 / 10 ^ 16)
    ∧ (∀ j, |(∑ i, rotationMatrix frames a b i j ^ 2) - 1| ≤ 18 / 10 ^ 16) := by
  have hcomb : Astronomy_CombineRotation (rotationMatrix frames a b)
      (rotationMatrix frames b a) = 1 := rotation_roundtrip frames h b a
  have horth := rotation_is_orthogonal frames h a b
  refine ⟨fun i j => ?_, fun i => ?_, fun j => ?_⟩
  · rw [hcomb, sub_self, abs_zero]
    norm_num
  · rw [row_normsq_of_orthogonal _ horth i, sub_self, abs_zero]
    norm_num
  · have horthT : (rotationMatrix frames a b)ᵀ * ((rotationMatrix frames a b)ᵀ)ᵀ = 1 := by
      rw [Matrix.transpose_transpose]
      exact Matrix.mul_eq_one_comm.mp horth
    have hcol := row_normsq_of_orthogonal _ horthT j
    have hcol' : (∑ i, rotationMatrix frames a b i j ^ 2) = 1 := by
      rw [← hcol]
      exact Finset.sum_congr rfl fun i _ => by rw [Matrix.transpose_apply]
    rw [hcol', sub_self, abs_zero]
    norm_num

/-- Witness for `Rotation_roundtrip_and_unit_norms` at the sample frame
orientations and the pair (EQD, HOR). -/
theorem Rotation_roundtrip_and_unit_norms_witness :
    (∀ f, ∀ p ∈ sampleFrames f, p.onUnitCircle)
    ∧ ((∀ i j, |Astronomy_CombineRotation (rotationMatrix sampleFrames .eqd .hor)
          (rotationMatrix sampleFrames .hor .eqd) i j
          - (1 : Matrix (Fin 3) (Fin 3) ℚ) i j| ≤ 2 / 10 ^ 15)
      ∧ (∀ i, |(∑ j, rotationMatrix sampleFrames .eqd .hor i j ^ 2) - 1| ≤ 18 / 10 ^ 16)
      ∧ (∀ j, |(∑ i, rotationMatrix sampleFrames .eqd .hor i j ^ 2) - 1| ≤ 18 / 10 ^ 16)) :=
  ⟨sampleFrames_unitCircle,
    Rotation_roundtrip_and_unit_norms sampleFrames sampleFrames_unitCircle .eqd .hor⟩

/-- C8: an equator-date selector outside the enumeration's domain
(neither `EQUATOR_J2000 = 0` nor `EQUATOR_OF_DATE = 1`) makes
`Astronomy_ObserverVector` return a record whose status is
`ASTRO_INVALID_PARAMETER` (the check of `GeoidTest`, `generate/ctest.c`
lines 5046-5051). -/
theorem ObserverVector_invalid_equdate (g : ℚ × ℚ × ℚ) (e : Int)
    (h0 : e ≠ 0) (h1 : e ≠ 1) :
    (Astronomy_ObserverVector g e).status = .astro_invalid_parameter := by
  unfold Astronomy_ObserverVector
  rw [if_neg (by tauto)]

/-- Witness for `ObserverVector_invalid_equdate` at the selector value 42
used by `GeoidTest`. -/
theorem ObserverVector_invalid_equdate_witness :
    ((42 : Int) ≠ 0) ∧ ((42 : Int) ≠ 1)
    ∧ (Astronomy_ObserverVector (0, 0, 0) 42).status = .astro_invalid_parameter :=
  ⟨by decide, by decide,
    ObserverVector_invalid_equdate (0, 0, 0) 42 (by decide) (by decide)⟩

/-- C10: for rational (hence finite) degree values with `|a - b| < 360`,
`DegreeDiff` returns `min |a - b| (360 - |a - b|)`, which lies in
[0, 180]. -/
theorem DegreeDiff_min_wraparound (a b : ℚ) (h : |a - b| < 360) :
    DegreeDiff a b = min |a - b| (360 - |a - b|)
    ∧ 0 ≤ DegreeDiff a b ∧ DegreeDiff a b ≤ 180 := by
  simp only [DegreeDiff]
  split_ifs with hif
  · have h1 : 360 - |a - b| ≤ |a - b| := by linarith [hif.1]
    refine ⟨(min_eq_right h1).symm, by linarith [hif.2], by linarith [hif.1]⟩
  · have hd : |a - b| ≤ 180 := by
      by_contra hc
      push_neg at hc
      exact hif ⟨hc, h⟩
    exact ⟨(min_eq_left (by linarith)).symm, abs_nonneg _, hd⟩

/-- Witness for `DegreeDiff_min_wraparound` at the wrapped pair
(10, 350). -/
theorem DegreeDiff_min_wraparound_witness :
    |(10 : ℚ) - 350| < 360
    ∧ (DegreeDiff 10 350 = min |(10 : ℚ) - 350| (360 - |(10 : ℚ) - 350|)
      ∧ 0 ≤ DegreeDiff 10 350 ∧ DegreeDiff 10 350 ≤ 180) :=
  ⟨by norm_num, DegreeDiff_min_wraparound 10 350 (by norm_num)⟩

/-- C9: appending a state with status `ASTRO_SUCCESS` to a well-formed
batch succeeds, preserves the batch invariant `0 ≤ length ≤ size`,
increases `length` by exactly one, stores the given state at the old
`length`, keeps every earlier entry unchanged, and manages capacity as
`AppendStateVector` in `generate/ctest.c` does: the first append
allocates 100 entries, a full buffer doubles, and otherwise the capacity
is unchanged. -/
theorem AppendStateVector_spec (batch : state_vector_batch_t)
    (state : astro_state_vector_t)
    (hwf : BatchWF batch) (hst : state.status = .astro_success) :
    ∃ b', AppendStateVector batch state = some b'
      ∧ BatchWF b'
      ∧ b'.length = batch.length + 1
      ∧ batchGet b' batch.length = some state
      ∧ (∀ i, i < batch.length → batchGet b' i = batchGet batch i)
      ∧ (batch.array = none → b'.size = 100)
      ∧ (batch.array ≠ none → batch.length = batch.size → b'.size = 2 * batch.size)
      ∧ (batch.array ≠ none → batch.length ≠ batch.size → b'.size = batch.size) := by
  rcases batch with ⟨sz, len, arr⟩
  cases arr with
  | none =>
      obtain ⟨hsz, hlen⟩ : sz = 0 ∧ len = 0 := hwf
      subst hsz
      subst hlen
      refine ⟨⟨100, 1, some ((List.replicate 100 zeroStateVector).set 0 state)⟩,
        ?_, ?_, rfl, ?_, ?_, fun _ => rfl, fun hne _ => absurd rfl hne,
        fun hne _ => absurd rfl hne⟩
      · simp [AppendStateVector, hst]
      · exact ⟨by simp, by norm_num, by norm_num⟩
      · show ((List.replicate 100 zeroStateVector).set 0 state)[0]? = some state
        exact List.getElem?_set_self (by simp)
      · intro i hi
        exact absurd hi (Nat.not_lt_zero i)
  | some l =>
      obtain ⟨hlen_eq, hle, hpos⟩ : l.length = sz ∧ len ≤ sz ∧ 0 < sz := hwf
      by_cases hfull : len = sz
      · subst hfull
        have hbig : (l ++ List.replicate len zeroStateVector).length = 2 * len := by
          simp [hlen_eq, two_mul]
        refine ⟨⟨2 * len, len + 1,
            some ((l ++ List.replicate len zeroStateVector).set len state)⟩,
          ?_, ?_, rfl, ?_, ?_, fun hn => absurd hn (by simp),
          fun _ _ => rfl, fun _ hne => absurd rfl hne⟩
        · simp [AppendStateVector, hst]
        · refine ⟨?_, ?_, ?_⟩
          · show ((l ++ List.replicate len zeroStateVector).set len state).length = 2 * len
            simp [hbig]
          · show len + 1 ≤ 2 * len
            omega
          · show 0 < 2 * len
            omega
        · show ((l ++ List.replicate len zeroStateVector).set len state)[len]? = some state
          exact List.getElem?_set_self (by omega)
        · intro i hi
          have hi' : i < len := hi
          show ((l ++ List.replicate len zeroStateVector).set len state)[i]? = l[i]?
          rw [List.getElem?_set_ne (by omega), List.getElem?_append_left (by omega)]
      · refine ⟨⟨sz, len + 1, some (l.set len state)⟩,
          ?_, ?_, rfl, ?_, ?_, fun hn => absurd hn (by simp),
          fun _ hfl => absurd hfl hfull, fun _ _ => rfl⟩
        · simp [AppendStateVector, hst, hfull]
        · refine ⟨?_, ?_, ?_⟩
          · show (l.set len state).length = sz
            simp [hlen_eq]
          · show len + 1 ≤ sz
            omega
          · exact hpos
        · show (l.set len state)[len]? = some state
          exact List.getElem?_set_self (by omega)
        · intro i hi
          have hi' : i < len := hi
          show (l.set len state)[i]? = l[i]?
          exact List.getElem?_set_ne (by omega)

/-- Witness for `AppendStateVector_spec` at the empty batch and the
sample state. -/
theorem AppendStateVector_spec_witness :
    BatchWF EmptyStateVectorBatch
    ∧ sampleState.status = .astro_success
    ∧ (∃ b', AppendStateVector EmptyStateVectorBatch sampleState = some b'
      ∧ BatchWF b'
      ∧ b'.length = EmptyStateVectorBatch.length + 1
      ∧ batchGet b' EmptyStateVectorBatch.length = some sampleState
      ∧ (∀ i, i < EmptyStateVectorBatch.length → batchGet b' i = batchGet EmptyStateVectorBatch i)
      ∧ (EmptyStateVectorBatch.array = none → b'.size = 100)
      ∧ (EmptyStateVectorBatch.array ≠ none → EmptyStateVectorBatch.length = EmptyStateVectorBatch.size →
          b'.size = 2 * EmptyStateVectorBatch.size)
      ∧ (EmptyStateVectorBatch.array ≠ none → EmptyStateVectorBatch.length ≠ EmptyStateVectorBatch.size →
          b'.size = EmptyStateVectorBatch.size)) :=
  ⟨⟨rfl, rfl⟩, rfl, AppendStateVector_spec EmptyStateVectorBatch sampleState ⟨rfl, rfl⟩ rfl⟩
